import Mathlib

/-!
Verification of the arxiv-paper-summarizer summarization modules.

Texts are modeled as `List Char` (Python `str` code points).  Python's
bounded-magnitude-free `int` is modeled by `Int`/`Nat`.  The float values
appearing in the code (`max_length * 0.6`, relevance scores) are modeled by
exact `Int`/`ℚ` arithmetic; at every value these claims touch the IEEE-double
computation agrees with the exact one (see the doc comments at the
definitions involved).
-/

set_option maxRecDepth 8000

/-- Characters matched by Python's `\s` and stripped by `str.strip` (the ASCII
whitespace characters; all texts in this development are ASCII). -/
def pyIsSpace (c : Char) : Bool :=
  c == ' ' || c == '\t' || c == '\n' || c == '\r' || c == '\x0b' || c == '\x0c'

/-- Python `str.lower` on one character (ASCII range). -/
def pyLowerChar (c : Char) : Char :=
  if 65 ≤ c.toNat && c.toNat ≤ 90 then Char.ofNat (c.toNat + 32) else c

/-- Python `str.lower` (ASCII range). -/
def pyLower (s : List Char) : List Char := s.map pyLowerChar

/-- The regex character classes `[A-Z]` and `[a-z]` as they behave under the
section patterns' inline `(?i)` flag: with `re.IGNORECASE` each matches an
ASCII letter of either case. -/
def isLetterCI (c : Char) : Bool :=
  (65 ≤ c.toNat && c.toNat ≤ 90) || (97 ≤ c.toNat && c.toNat ≤ 122)

/-- Python `str.strip()`: drop whitespace from both ends. -/
def pyStrip (s : List Char) : List Char :=
  ((s.dropWhile pyIsSpace).reverse.dropWhile pyIsSpace).reverse

/-- Python slice `s[a:b]` with `int` endpoints: negative indices count from the
end, out-of-range indices clamp. -/
def pySlice (s : List Char) (a b : Int) : List Char :=
  let n : Int := s.length
  let a' := if a < 0 then max 0 (n + a) else min a n
  let b' := if b < 0 then max 0 (n + b) else min b n
  (s.take b'.toNat).drop a'.toNat

/-- Python slice `s[a:]` with an `int` start index. -/
def pySliceFrom (s : List Char) (a : Int) : List Char :=
  let n : Int := s.length
  let a' := if a < 0 then max 0 (n + a) else min a n
  s.drop a'.toNat

/-- Python `s.rfind(c)` restricted to single-character needles: the index of
the last occurrence, `none` for Python's `-1`. -/
def pyRfind (c : Char) (s : List Char) : Option Nat :=
  match s.reverse.findIdx? (fun d => d == c) with
  | some i => some (s.length - 1 - i)
  | none => none

/-- Length of the maximal whitespace run starting at position `p` (the greedy
extent of `\s*`). -/
def wsRunLen (s : List Char) (p : Nat) : Nat :=
  ((s.drop p).takeWhile pyIsSpace).length

/-- Does the section-terminator regex `(?:\n\n|\n[A-Z][a-z]+\s*\n)` match at
position `k`?  The patterns carry the inline `(?i)` flag, under which both
character classes match letters of either case (`isLetterCI`).  For the
second alternative, `[a-z]+` being greedy over a run followed by a non-letter
forces the maximal run, and `\s*\n` matches iff a newline occurs inside the
whitespace run that follows it. -/
def sectionBreakAt (s : List Char) (k : Nat) : Bool :=
  match s.get? k, s.get? (k+1) with
  | some '\n', some '\n' => true
  | some '\n', some c =>
    if isLetterCI c then
      let l := ((s.drop (k+2)).takeWhile isLetterCI).length
      if l == 0 then false
      else ((s.drop (k+2+l)).takeWhile pyIsSpace).contains '\n'
    else false
  | _, _ => false

/-- Case-insensitive literal match of `kw` (given lowercase) at position `i`. -/
def ciMatchAt (kw : List Char) (s : List Char) (i : Nat) : Bool :=
  kw.isPrefixOf (((s.drop i).take kw.length).map pyLowerChar)

/-- Backtracking continuation `\s*(.*?)(?:\n\n|\n[A-Z][a-z]+\s*\n)` (with
`|\Z` appended when `eos` is true) starting at position `p`: the greedy `\s*`
tries the longest whitespace run first, the lazy group the shortest extent
first, and the captured group is returned on the first success. -/
def sectionTailMatch (s : List Char) (p : Nat) (eos : Bool) : Option (List Char) :=
  let n := s.length
  let wmax := wsRunLen s p
  ((List.range (wmax+1)).reverse).findSome? (fun w =>
    ((List.range' (p+w) (n+1-(p+w))).find?
        (fun k => sectionBreakAt s k || (eos && k == n))).map
      (fun k => (s.take k).drop (p+w)))

/-- Models `re.search` of the section patterns
`(?i)(?:kw1|kw2|…)\s*(.*?)(?:\n\n|\n[A-Z][a-z]+\s*\n)` (DOTALL; with `|\Z`
in the terminator when `eos` is true): the leftmost starting position wins,
alternatives are tried in order, and group 1 is returned. -/
def sectionSearch (kws : List (List Char)) (eos : Bool) (s : List Char) :
    Option (List Char) :=
  (List.range (s.length+1)).findSome? (fun i =>
    kws.findSome? (fun kw =>
      if ciMatchAt kw s i then sectionTailMatch s (i + kw.length) eos else none))

/-- The dictionary built by `extract_paper_sections`: one optional entry per
section name. -/
structure Sections where
  abstract : Option (List Char)
  introduction : Option (List Char)
  methods : Option (List Char)
  results : Option (List Char)
  discussion : Option (List Char)
  conclusion : Option (List Char)
deriving DecidableEq, Repr

/-- Embedding of `extract_paper_sections` (text_processor.py): each section is
the stripped group 1 of the corresponding regex search. -/
def extract_paper_sections (text : List Char) : Sections :=
  { abstract := (sectionSearch [ "abstract".data ] false text).map pyStrip
    introduction :=
      (sectionSearch [ "introduction".data, "background".data ] false text).map pyStrip
    methods :=
      (sectionSearch
        [ "methods".data, "methodology".data, "experimental setup".data ]
        false text).map pyStrip
    results :=
      (sectionSearch [ "results".data, "findings".data, "evaluation".data ]
        false text).map pyStrip
    discussion := (sectionSearch [ "discussion".data ] false text).map pyStrip
    conclusion :=
      (sectionSearch [ "conclusion".data, "conclusions".data, "summary".data ]
        true text).map pyStrip }

/-- The `if sections:` truthiness test: the dict is nonempty iff some section
was found. -/
def sectionsFound (secs : Sections) : Bool :=
  secs.abstract.isSome || secs.introduction.isSome || secs.methods.isSome
  || secs.results.isSome || secs.discussion.isSome || secs.conclusion.isSome

/-- The per-section text `f"{section_name}:\n{section_content}\n\n"`. -/
def sectionChunk (name content : List Char) : List Char :=
  name ++ ":\n".data ++ content ++ "\n\n".data

/-- One iteration of the structured-text loop of `prepare_text_for_llm`:
state is `(structured_text, remaining_length)`. -/
def addSection (st : List Char × Int) (name : List Char)
    (content? : Option (List Char)) : List Char × Int :=
  match content? with
  | none => st
  | some content =>
    if st.2 > 0 then
      let s0 := sectionChunk name content
      let s1 := if (s0.length : Int) > st.2
        then s0.take st.2.toNat ++ "...\n\n".data else s0
      (st.1 ++ s1, st.2 - s1.length)
    else st

/-- The `priority_order` list of `prepare_text_for_llm`, paired with the
section contents: ABSTRACT, INTRODUCTION, CONCLUSION, METHODS, RESULTS,
DISCUSSION. -/
def prioritySections (secs : Sections) : List (List Char × Option (List Char)) :=
  [ ( "ABSTRACT".data, secs.abstract),
    ( "INTRODUCTION".data, secs.introduction),
    ( "CONCLUSION".data, secs.conclusion),
    ( "METHODS".data, secs.methods),
    ( "RESULTS".data, secs.results),
    ( "DISCUSSION".data, secs.discussion) ]

/-- The structured-text accumulation loop of `prepare_text_for_llm`. -/
def structuredText (secs : Sections) (maxLength : Int) : List Char :=
  ((prioritySections secs).foldl (fun st p => addSection st p.1 p.2)
    ([], maxLength)).1

/-- Models `int(max_length * 0.6)` by exact integer arithmetic.  `Int.tdiv`
truncates toward zero exactly as Python's `int()`, and for every budget
`0 ≤ m ≤ 2^50` the IEEE-double product `m * 0.6` truncates to exactly
`⌊3m/5⌋` (the rounding error is below the 0.2 gap to the nearest integer).
For astronomically large budgets near `2^53` the float product can truncate
to `⌊3m/5⌋ + 1`; the length-bound proofs only use `0 ≤ fp ≤ m - 1` and
`fp + lp = m`, which hold for both values. -/
def first_portion (m : Int) : Int := Int.tdiv (3 * m) 5

/-- Embedding of `prepare_text_for_llm` (text_processor.py). -/
def prepare_text_for_llm (text : List Char) (maxLength : Int) : List Char :=
  let secs := extract_paper_sections text
  let structured := structuredText secs maxLength
  if sectionsFound secs && !structured.isEmpty then structured
  else if (text.length : Int) ≤ maxLength then text
  else
    let fp := first_portion maxLength
    let lp := maxLength - fp
    let beginning := pySlice text 0 fp
    let ending := pySliceFrom text (-lp)
    beginning ++ "\n\n[...]\n\n".data ++ ending

/-- The chunk-end computation of one `chunk_text` iteration: `end` starts at
`min(start + max_chunk_size, len(text))` and is pulled back to just after the
last period (else newline) in the final `min(100, end - start)` characters,
when `end` is not at the end of the text. -/
def chunkEnd (text : List Char) (start mcs : Int) : Int :=
  let n : Int := text.length
  let e := min (start + mcs) n
  if e < n then
    let lb := min 100 (e - start)
    match pyRfind '.' (pySlice text (e - lb) e) with
    | some ba => e - lb + ba + 1
    | none =>
      match pyRfind '\n' (pySlice text (e - lb) e) with
      | some ba => e - lb + ba + 1
      | none => e
  else e

/-- The `while start < len(text)` loop of `chunk_text`, given `fuel` remaining
iterations: `none` means the fuel ran out with the loop still running. -/
def chunkLoop (text : List Char) (mcs overlap : Int) :
    Nat → Int → List (List Char) → Option (List (List Char))
  | 0, start, acc =>
    if start < (text.length : Int) then none else some acc
  | fuel+1, start, acc =>
    if start < (text.length : Int) then
      let e := chunkEnd text start mcs
      chunkLoop text mcs overlap fuel (e - overlap) (acc ++ [pySlice text start e])
    else some acc

/-- Embedding of `chunk_text` (text_processor.py), instrumented with fuel:
`chunk_text text mcs overlap fuel = none` says the loop is still running after
`fuel` iterations. -/
def chunk_text (text : List Char) (mcs overlap : Int) (fuel : Nat) :
    Option (List (List Char)) :=
  chunkLoop text mcs overlap fuel 0 []

/-! ### LLM client (ollama_client.py) -/

/-- JSON values of the shape appearing in Ollama response bodies: strings and
string-keyed objects.  (Numbers, booleans, arrays and null do not occur in any
body this development evaluates and are outside the modeled subset: parsing
them fails.) -/
inductive JVal where
  | jstr (s : List Char)
  | jobj (fields : List (List Char × JVal))

/-- Python `d.get(key, default)` on a parsed JSON value: `none` models the
`AttributeError` raised when `d` is not a dict.  Duplicate keys follow
`json.loads`: the last occurrence wins. -/
def dictGet (v : JVal) (key : List Char) (dflt : JVal) : Option JVal :=
  match v with
  | .jobj fields => some ((fields.reverse.lookup key).getD dflt)
  | .jstr _ => none

/-- JSON inter-token whitespace. -/
def jsonWs (c : Char) : Bool := c == ' ' || c == '\t' || c == '\n' || c == '\r'

/-- Parse the body of a JSON string literal after the opening quote, up to the
closing quote.  Escape sequences are not modeled; no input in this development
contains any. -/
def parseJStr : List Char → Option (List Char × List Char)
  | [] => none
  | c :: rest =>
    if c == '"' then some ([], rest)
    else
      match parseJStr rest with
      | some (s, r) => some (c :: s, r)
      | none => none

mutual

/-- Recursive-descent parser for one JSON value of the modeled subset;
`fuel` bounds the recursion depth (each level consumes at least one
character, so `length + 1` fuel never runs out on a real input). -/
def parseJVal : Nat → List Char → Option (JVal × List Char)
  | 0, _ => none
  | fuel+1, s =>
    match s.dropWhile jsonWs with
    | '"' :: rest =>
      match parseJStr rest with
      | some (str1, r) => some (.jstr str1, r)
      | none => none
    | '\x7b' :: rest =>
      match rest.dropWhile jsonWs with
      | '\x7d' :: r => some (.jobj [], r)
      | _ =>
        match parseJMembers fuel rest with
        | some (fields, r) => some (.jobj fields, r)
        | none => none
    | _ => none

/-- Parse the members of a JSON object after the opening brace. -/
def parseJMembers : Nat → List Char → Option (List (List Char × JVal) × List Char)
  | 0, _ => none
  | fuel+1, s =>
    match s.dropWhile jsonWs with
    | '"' :: rest =>
      match parseJStr rest with
      | some (key, r1) =>
        match r1.dropWhile jsonWs with
        | ':' :: r3 =>
          match parseJVal fuel r3 with
          | some (v, r4) =>
            match r4.dropWhile jsonWs with
            | ',' :: r6 =>
              match parseJMembers fuel r6 with
              | some (fields, r7) => some ((key, v) :: fields, r7)
              | none => none
            | '\x7d' :: r6 => some ([(key, v)], r6)
            | _ => none
          | none => none
        | _ => none
      | none => none
    | _ => none

end

/-- Models `json.loads`: parse one value of the modeled subset, allow
surrounding whitespace, and require the input to be fully consumed; `none`
models `json.JSONDecodeError`. -/
def json_loads (s : List Char) : Option JVal :=
  match parseJVal (s.length + 1) s with
  | some (v, rest) => if (rest.dropWhile jsonWs).isEmpty then some v else none
  | none => none

/-- The chat-API extraction
`response.json().get("message", {}).get("content", "")`; `none` models any
exception there (all are caught by the surrounding `except Exception` and
lead to the generate fallback). -/
def chatExtract (body : List Char) : Option JVal :=
  match json_loads body with
  | none => none
  | some j =>
    match dictGet j "message".data (.jobj []) with
    | none => none
    | some m => dictGet m "content".data (.jstr [])

/-- Python `text.count(c)` for a single character. -/
def countChar (c : Char) (s : List Char) : Nat :=
  (s.filter (fun d => d == c)).length

/-- Python `needle in hay` for strings. -/
def containsSeq (needle hay : List Char) : Bool :=
  (List.range (hay.length + 1)).any (fun i => needle.isPrefixOf (hay.drop i))

/-- The salvage expression
`response.text.split('"response":"')[1].split('"')[0]`: the text after the
first occurrence of the separator, up to the next double quote.  `none` models
the `IndexError` when the separator does not occur (swallowed by the bare
`except`). -/
def salvageResponse (s : List Char) : Option (List Char) :=
  let sep := ( "\"response\":\"").data
  (List.range (s.length + 1)).findSome? (fun i =>
    if sep.isPrefixOf (s.drop i) then
      some ((s.drop (i + sep.length)).takeWhile (fun c => !(c == '"')))
    else none)

/-- Outcome of a Python call: a normal return value or an uncaught
exception. -/
inductive PyOutcome where
  | ret (v : JVal)
  | raised (e : List Char)

/-- The string `f"Error: Received status code {response.status_code} from Ollama API"`. -/
def statusErrMsg (code : Nat) : List Char :=
  "Error: Received status code ".data ++ (Nat.repr code).data
    ++ " from Ollama API".data

/-- The string `f"Connection error with Ollama API: {str(e)}"`. -/
def connErrMsg (msg : List Char) : List Char :=
  "Connection error with Ollama API: ".data ++ msg

/-- The generate-API 200 handler (ollama_client.py lines 84-118): a body with
more than one `\x7b` is treated as an NDJSON stream - split into lines, each
nonblank line parsed independently, unparsable lines skipped with a warning,
and the `response` field of the last parsed object returned; otherwise the
body is parsed as a single JSON object; on a decode failure the raw text is
salvaged or an error string returned (the `JSONDecodeError` text is modeled
by a fixed placeholder).  `PyOutcome.raised` models the `AttributeError` from
`.get` on a non-dict, which no `except` clause of this path catches. -/
def generateHandle (body : List Char) : PyOutcome :=
  if countChar '\x7b' body > 1 then
    let lines := (pyStrip body).splitOn '\n'
    let objs := lines.filterMap (fun l =>
      if !(pyStrip l).isEmpty then json_loads l else none)
    match objs.getLast? with
    | some last =>
      match dictGet last "response".data (.jstr []) with
      | some v => .ret v
      | none => .raised "AttributeError".data
    | none => .ret (.jstr [])
  else
    match json_loads body with
    | some j =>
      match dictGet j "response".data (.jstr []) with
      | some v => .ret v
      | none => .raised "AttributeError".data
    | none =>
      if containsSeq "response".data body then
        match salvageResponse body with
        | some v => .ret (.jstr v)
        | none => .ret (.jstr "Error parsing response: <json decode error>".data)
      else .ret (.jstr "Error parsing response: <json decode error>".data)

/-- The two URLs `query_ollama` can post to. -/
inductive Endpoint where
  | chat
  | generate
deriving DecidableEq

/-- The two request payload shapes (`model`, `max_tokens` and `temperature`
only decorate the payload and are omitted). -/
inductive Payload where
  | chatData (prompt : List Char)
  | genData (prompt : List Char)
deriving DecidableEq

/-- Result of one `requests.post`: a raised
`requests.exceptions.RequestException` or a `(status_code, text)` response. -/
inductive TResult where
  | exc (msg : List Char)
  | resp (status : Nat) (body : List Char)

/-- The HTTP layer as a stateless oracle: what posting `data` to `url`
produces. -/
def Transport := Endpoint → Payload → TResult

/-- Events observable from outside `query_ollama`: HTTP posts and
`time.sleep` calls. -/
inductive REvent where
  | post (u : Endpoint) (d : Payload)
  | sleep (secs : Nat)
deriving DecidableEq

/-- The HTTP posts of a trace. -/
def postsOf (evs : List REvent) : List (Endpoint × Payload) :=
  evs.filterMap (fun e => match e with | .post u d => some (u, d) | _ => none)

/-- The sleep durations of a trace. -/
def sleepsOf (evs : List REvent) : List Nat :=
  evs.filterMap (fun e => match e with | .sleep s => some s | _ => none)

/-- The `for attempt in range(retries)` loop of `query_ollama`, with `k`
iterations remaining (`1 ≤ k` inside an iteration iff
`attempt < retries - 1`, the sleep-and-retry condition of the source).  The
mutable `url`/`data` pair persists across iterations exactly as in the
source: after the first fallback both stay at the generate endpoint, and the
first post of each iteration is always parsed chat-style (the parse is tied
to the code position, not to the url variable). -/
def queryLoop (t : Transport) (delay : Nat) (prompt : List Char) :
    Nat → Endpoint × Payload → PyOutcome × List REvent
  | 0, _ =>
    (.ret (.jstr "Failed to get a response after multiple retries".data), [])
  | k+1, (url, data) =>
    match t url data with
    | .exc m =>
      if 1 ≤ k then
        ((queryLoop t delay prompt k (url, data)).1,
          .post url data :: .sleep delay
            :: (queryLoop t delay prompt k (url, data)).2)
      else (.ret (.jstr (connErrMsg m)), [.post url data])
    | .resp code body =>
      match (if code == 200 then chatExtract body else none) with
      | some v => (.ret v, [.post url data])
      | none =>
        match t .generate (.genData prompt) with
        | .exc m =>
          if 1 ≤ k then
            ((queryLoop t delay prompt k (.generate, .genData prompt)).1,
              .post url data :: .post .generate (.genData prompt) :: .sleep delay
                :: (queryLoop t delay prompt k (.generate, .genData prompt)).2)
          else
            (.ret (.jstr (connErrMsg m)),
              [.post url data, .post .generate (.genData prompt)])
        | .resp code2 body2 =>
          if code2 == 200 then
            (generateHandle body2,
              [.post url data, .post .generate (.genData prompt)])
          else
            if 1 ≤ k then
              ((queryLoop t delay prompt k (.generate, .genData prompt)).1,
                .post url data :: .post .generate (.genData prompt)
                  :: .sleep delay
                  :: (queryLoop t delay prompt k (.generate, .genData prompt)).2)
            else
              (.ret (.jstr (statusErrMsg code2)),
                [.post url data, .post .generate (.genData prompt)])

/-- Embedding of `query_ollama` (ollama_client.py), parameterized by the HTTP
transport: the Python return value together with the trace of posts and
sleeps.  `retries : Nat` covers Python's `range(retries)` (empty for
non-positive counts). -/
def query_ollama (t : Transport) (prompt : List Char)
    (retries retry_delay : Nat) : PyOutcome × List REvent :=
  queryLoop t retry_delay prompt retries (.chat, .chatData prompt)

/-- A failing attempt: a connection error, or a non-200 status. -/
def attemptFails (r : TResult) : Prop :=
  match r with
  | .exc _ => True
  | .resp code _ => code ≠ 200

/-- A descriptive error string of `query_ollama`: one of the two messages it
degrades to after exhausting retries. -/
def descriptiveError (s : List Char) : Prop :=
  (∃ m, s = connErrMsg m) ∨ (∃ c, c ≠ 200 ∧ s = statusErrMsg c)

/-- The transport of the C4 scenario: the chat endpoint returns 500, the
generate endpoint 200 with the two-line NDJSON body. -/
def chatFail500 : Transport := fun u _ =>
  match u with
  | .chat => .resp 500 []
  | .generate =>
    .resp 200 ( "\x7b\"response\":\"a\"\x7d\n\x7b\"response\":\"ab\"\x7d".data)

/-- The C4 scenario with a malformed middle line inserted into the stream. -/
def chatFail500m : Transport := fun u _ =>
  match u with
  | .chat => .resp 500 []
  | .generate =>
    .resp 200
      ( "\x7b\"response\":\"a\"\x7d\nnot json\n\x7b\"response\":\"ab\"\x7d".data)

/-- The transport of the C5 scenario: the chat endpoint succeeds; the
generate endpoint would give a recognizably different answer. -/
def chatOk : Transport := fun u _ =>
  match u with
  | .chat => .resp 200 ( "\x7b\"message\":\x7b\"content\":\"hello\"\x7d\x7d".data)
  | .generate => .resp 200 ( "\x7b\"response\":\"WRONG\"\x7d".data)

/-! ### Relevance analyzer (relevance_analyzer.py) -/

/-- The regex character class `\d`. -/
def isDigitAZ (c : Char) : Bool := 48 ≤ c.toNat && c.toNat ≤ 57

/-- Value of a decimal digit string. -/
def digitsToNat (ds : List Char) : Nat :=
  ds.foldl (fun a c => 10 * a + (c.toNat - 48)) 0

/-- Models `re.search(r'RELEVANCE_SCORE:\s*(\d+(?:\.\d+)?)', response)`: at
the leftmost position where the literal is followed (after the greedy
whitespace) by at least one digit, capture the greedy digit run and, when a
dot with at least one digit follows, the greedy fractional run.  The capture
is returned as (integer part, fraction digits value, fraction length). -/
def scoreSearch (s : List Char) : Option (Nat × Nat × Nat) :=
  (List.range (s.length + 1)).findSome? (fun i =>
    if ( "RELEVANCE_SCORE:".data).isPrefixOf (s.drop i) then
      let rest := (s.drop (i + 16)).dropWhile pyIsSpace
      let ds := rest.takeWhile isDigitAZ
      if ds.isEmpty then none
      else
        match rest.drop ds.length with
        | '.' :: r2 =>
          let fs := r2.takeWhile isDigitAZ
          if fs.isEmpty then some (digitsToNat ds, 0, 0)
          else some (digitsToNat ds, digitsToNat fs, fs.length)
        | _ => some (digitsToNat ds, 0, 0)
    else none)

/-- The `float()` of the captured decimal literal, modeled exactly as a
rational (exact at every value these claims compare). -/
def scoreVal (p : Nat × Nat × Nat) : ℚ :=
  (p.1 : ℚ) + (p.2.1 : ℚ) / (10 : ℚ) ^ p.2.2

/-- Models `re.search(r'EXPLANATION:\s*(.*?)(?:\n|$)', response, re.DOTALL)`:
at the leftmost occurrence of the literal, greedy whitespace, then the lazy
group runs to the first newline after it (or to the end; the match never
fails once the literal occurs). -/
def explSearch (s : List Char) : Option (List Char) :=
  (List.range (s.length + 1)).findSome? (fun i =>
    if ( "EXPLANATION:".data).isPrefixOf (s.drop i) then
      let rest := (s.drop (i + 12)).dropWhile pyIsSpace
      some (rest.takeWhile (fun c => !(c == '\n')))
    else none)

/-- The dictionary returned by `analyze_relevance`. -/
structure RelevanceResult where
  score : ℚ
  explanation : List Char
  is_relevant : Bool
deriving DecidableEq

/-- The fallback keyword loop of `analyze_relevance`: `+= 2` for every topic
whose lowercase form occurs in the lowercase title or lowercase summary. -/
def keywordScore (title summary : List Char) (topics : List (List Char)) : Nat :=
  topics.foldl (fun acc topic =>
    if containsSeq (pyLower topic) (pyLower title)
        || containsSeq (pyLower topic) (pyLower summary)
    then acc + 2 else acc) 0

/-- Embedding of `analyze_relevance` (relevance_analyzer.py), parameterized by
the LLM reply `response` (the `query_ollama` result for the built prompt) and
by the module-level `RELEVANCE_THRESHOLD`.  When both regexes match, the
parsed score is used; otherwise the keyword fallback capped at 10. -/
def analyze_relevance (title summary : List Char) (topics : List (List Char))
    (threshold : ℚ) (response : List Char) : RelevanceResult :=
  match scoreSearch response, explSearch response with
  | some sp, some ex =>
    { score := scoreVal sp
      explanation := pyStrip ex
      is_relevant := decide (threshold ≤ scoreVal sp) }
  | _, _ =>
    { score := min 10 ((keywordScore title summary topics : ℚ))
      explanation := "Score based on keyword matching (fallback method).".data
      is_relevant :=
        decide (threshold ≤ min 10 ((keywordScore title summary topics : ℚ))) }

/-! ### Summarization pipeline (summarizer.py) -/

/-- A paper document as the summarization stage sees it: optional fields model
Mongo field presence (`$exists`). -/
structure Paper where
  paper_id : List Char
  title : List Char
  extracted_text : Option (List Char)
  summary : Option (List Char)
deriving DecidableEq

/-- The Mongo filter of `get_papers_without_summary`:
`extracted_text` exists and `summary` does not. -/
def needsSummary (p : Paper) : Bool :=
  p.extracted_text.isSome && p.summary.isNone

/-- The force-update filter of `summarize_papers`: `extracted_text` exists,
regardless of summary status. -/
def hasExtracted (p : Paper) : Bool := p.extracted_text.isSome

/-- Embedding of `get_papers_without_summary` (summarizer.py): the collection
filtered by the query, truncated by `.limit(limit)`.  (The Mongo projection
only drops fields irrelevant to selection and is not modeled.) -/
def get_papers_without_summary (db : List Paper) (limit : Nat) : List Paper :=
  (db.filter needsSummary).take limit

/-- The paper-selection step of `summarize_papers` (summarizer.py lines
141-151): the force branch queries every paper with extracted text, the
normal branch delegates to `get_papers_without_summary`. -/
def summarize_papers_selection (db : List Paper) (limit : Nat) (force : Bool) :
    List Paper :=
  if force then (db.filter hasExtracted).take limit
  else get_papers_without_summary db limit

/-- The summarization-eligible set before the batch limit: the records
passing the Mongo filter of the requested mode. -/
def eligibleSet (db : List Paper) (force : Bool) : List Paper :=
  db.filter (fun p => if force then hasExtracted p else needsSummary p)

/-- The `$set` effect of `update_paper_with_summary` on the matched record. -/
def setSummary (p : Paper) (s : List Char) : Paper :=
  { p with summary := some s }

/-! ### Helper lemmas for the text-processor theorems -/

theorem addSection_sum (st : List Char × Int) (name : List Char)
    (c : Option (List Char)) :
    ((addSection st name c).1.length : Int) + (addSection st name c).2
      = (st.1.length : Int) + st.2 := by
  cases c with
  | none => rfl
  | some content =>
    unfold addSection
    by_cases h : st.2 > 0
    · simp only [if_pos h]
      push_cast [List.length_append]
      ring
    · simp only [if_neg h]

theorem addSection_rem (st : List Char × Int) (name : List Char)
    (c : Option (List Char)) (h : -5 ≤ st.2) :
    -5 ≤ (addSection st name c).2 := by
  cases c with
  | none => exact h
  | some content =>
    unfold addSection
    by_cases h2 : st.2 > 0
    · simp only [if_pos h2]
      have h5 : ("...\n\n".data).length = 5 := rfl
      by_cases h3 : ((sectionChunk name content).length : Int) > st.2
      · simp only [if_pos h3, List.length_append, List.length_take, h5]
        omega
      · simp only [if_neg h3]
        omega
    · simpa only [if_neg h2] using h

theorem foldl_addSection_inv (l : List (List Char × Option (List Char)))
    (st : List Char × Int) (h : -5 ≤ st.2) :
    ((l.foldl (fun st p => addSection st p.1 p.2) st).1.length : Int)
        + (l.foldl (fun st p => addSection st p.1 p.2) st).2
      = (st.1.length : Int) + st.2
    ∧ -5 ≤ (l.foldl (fun st p => addSection st p.1 p.2) st).2 := by
  induction l generalizing st with
  | nil => exact ⟨rfl, h⟩
  | cons p l ih =>
    simp only [List.foldl_cons]
    have h1 := addSection_sum st p.1 p.2
    have h2 := addSection_rem st p.1 p.2 h
    obtain ⟨e1, e2⟩ := ih (addSection st p.1 p.2) h2
    exact ⟨by linarith, e2⟩

theorem structuredText_length_le (secs : Sections) (m : Int) (h : -5 ≤ m) :
    ((structuredText secs m).length : Int) ≤ m + 5 := by
  obtain ⟨e1, e2⟩ := foldl_addSection_inv (prioritySections secs) ([], m) h
  unfold structuredText
  simp only [List.length_nil, Nat.cast_zero, zero_add] at e1
  linarith

theorem pySlice_zero_length_le (s : List Char) (b : Int) (hb : 0 ≤ b) :
    ((pySlice s 0 b).length : Int) ≤ b := by
  simp only [pySlice]
  rw [if_neg (show ¬ (0 : Int) < 0 by omega), if_neg (show ¬ b < 0 by omega)]
  simp only [List.length_drop, List.length_take]
  omega

theorem pySliceFrom_neg_length_le (s : List Char) (k : Int) (hk : 1 ≤ k) :
    ((pySliceFrom s (-k)).length : Int) ≤ k := by
  simp only [pySliceFrom]
  rw [if_pos (show -k < 0 by omega)]
  simp only [List.length_drop]
  omega

theorem first_portion_nonneg (m : Int) (h : 1 ≤ m) : 0 ≤ first_portion m := by
  unfold first_portion
  exact Int.tdiv_nonneg (by omega) (by omega)

theorem first_portion_lt (m : Int) (h : 1 ≤ m) : first_portion m ≤ m - 1 := by
  unfold first_portion
  have h1 : 5 * Int.tdiv (3 * m) 5 ≤ 3 * m := by
    have := Int.tdiv_add_tmod (3 * m) 5
    have := Int.tmod_nonneg 5 (a := 3 * m) (by omega)
    omega
  by_contra hc
  push_neg at hc
  have : m ≤ Int.tdiv (3 * m) 5 := by omega
  omega

/-! ### Claim theorems for the text processor -/

/-- C1 (code bug): with `text = "ab"`, `max_chunk_size = 2`, `overlap = 1` —
parameters satisfying `max_chunk_size > overlap ≥ 0` — the `chunk_text` loop
never terminates: whatever iteration budget `fuel` is granted, the walk is
still inside the `while` loop (`start` reaches `1 = len(text) - overlap` and
stays there for ever, so the loop also never fails fast). -/
theorem chunk_text_overlap_nonterminating :
    ∀ fuel : Nat, chunk_text "ab".data 2 1 fuel = none := by
  have step : ∀ (fuel : Nat) (acc : List (List Char)),
      chunkLoop "ab".data 2 1 (fuel+1) 1 acc
        = chunkLoop "ab".data 2 1 fuel 1 (acc ++ [ "b".data ]) := fun _ _ => rfl
  have stuck : ∀ (fuel : Nat) (acc : List (List Char)),
      chunkLoop "ab".data 2 1 fuel 1 acc = none := by
    intro fuel
    induction fuel with
    | zero => intro acc; rfl
    | succ n ih => intro acc; rw [step n acc]; exact ih _
  intro fuel
  cases fuel with
  | zero => rfl
  | succ n =>
    show chunkLoop "ab".data 2 1 (n+1) 0 [] = none
    have first : chunkLoop "ab".data 2 1 (n+1) 0 []
        = chunkLoop "ab".data 2 1 n 1 [ "ab".data ] := rfl
    rw [first]
    exact stuck n _

/-- C2 counterexample: the text `"abstract x\n\nzz"` is 14 characters, far
below the budget of 100, yet `prepare_text_for_llm` does not return it
unchanged — it returns the restructured `"ABSTRACT:\nx\n\n"` instead, because
a section was found. -/
theorem prepare_text_short_input_not_returned :
    (( "abstract x\n\nzz".data).length : Int) < 100
      ∧ prepare_text_for_llm "abstract x\n\nzz".data 100 ≠ "abstract x\n\nzz".data := by
  constructor
  · decide
  · decide

/-- C2 (amended): for every input text from which `extract_paper_sections`
extracts no sections, if the text's length is below the budget `max_length`,
then `prepare_text_for_llm` returns the input text unchanged.  (The original
claim fails when a section is found: the structured rewrite is returned even
for short texts.) -/
theorem prepare_text_unsectioned_short_unchanged
    (text : List Char) (maxLength : Int)
    (hsec : extract_paper_sections text = ⟨none, none, none, none, none, none⟩)
    (hlen : (text.length : Int) < maxLength) :
    prepare_text_for_llm text maxLength = text := by
  unfold prepare_text_for_llm
  rw [hsec]
  simp [show sectionsFound ⟨none, none, none, none, none, none⟩ = false from rfl,
    le_of_lt hlen]

theorem prepare_text_unsectioned_short_unchanged_w :
    extract_paper_sections "hello world".data = ⟨none, none, none, none, none, none⟩
      ∧ (( "hello world".data).length : Int) < 100
      ∧ prepare_text_for_llm "hello world".data 100 = "hello world".data :=
  ⟨by decide, by decide,
    prepare_text_unsectioned_short_unchanged _ _ (by decide) (by decide)⟩

/-- C3 counterexample: at budget `max_length = 0`, the one-character text
`"a"` (no sections, longer than the budget) is turned into
`"\n\n[...]\n\na"` — 10 characters, exceeding
`max_length + len("\n\n[...]\n\n") = 9`, because `last_portion = 0` makes
`text[-0:]` return the whole text. -/
theorem prepare_text_budget_zero_exceeds :
    ¬ (((prepare_text_for_llm "a".data 0).length : Int)
        ≤ 0 + (( "\n\n[...]\n\n".data).length : Int)) := by
  decide

/-- C3 (amended): for every input text and every budget `max_length ≥ 1`, the
length of `prepare_text_for_llm text max_length` is at most
`max_length + len("\n\n[...]\n\n")` (the truncation marker is 9 characters;
the structured path stays within `max_length + 5`).  The original claim fails
only at `max_length ≤ 0`. -/
theorem prepare_text_length_le_budget_plus_marker
    (text : List Char) (maxLength : Int) (h : 1 ≤ maxLength) :
    ((prepare_text_for_llm text maxLength).length : Int)
      ≤ maxLength + (( "\n\n[...]\n\n".data).length : Int) := by
  have hmark : (( "\n\n[...]\n\n".data).length : Int) = 9 := rfl
  rw [hmark]
  unfold prepare_text_for_llm
  by_cases h1 : (sectionsFound (extract_paper_sections text)
      && !(structuredText (extract_paper_sections text) maxLength).isEmpty) = true
  · rw [if_pos h1]
    have := structuredText_length_le (extract_paper_sections text) maxLength (by omega)
    omega
  · rw [if_neg h1]
    by_cases h2 : (text.length : Int) ≤ maxLength
    · rw [if_pos h2]
      omega
    · rw [if_neg h2]
      have hfp0 := first_portion_nonneg maxLength h
      have hfp1 := first_portion_lt maxLength h
      have hb := pySlice_zero_length_le text (first_portion maxLength) hfp0
      have he := pySliceFrom_neg_length_le text (maxLength - first_portion maxLength)
        (by omega)
      simp only [List.length_append, List.length_cons, List.length_nil]
      push_cast
      omega

theorem prepare_text_length_le_budget_plus_marker_w :
    (1 : Int) ≤ 2
      ∧ ((prepare_text_for_llm "abcd".data 2).length : Int)
          ≤ 2 + (( "\n\n[...]\n\n".data).length : Int) :=
  ⟨by decide, prepare_text_length_le_budget_plus_marker _ _ (by decide)⟩

/-! ### Claim theorems for the LLM client -/

/-- C4: with the chat endpoint returning HTTP 500 and the generate endpoint
returning HTTP 200 with the NDJSON body of the two lines
`{"response":"a"}` and `{"response":"ab"}`, `query_ollama` returns `"ab"`:
each line is parsed independently and the `response` field of the last
successfully parsed line wins.  The second conjunct shows a malformed middle
line is skipped with no effect on the result, and the third that both
endpoints were posted to (chat first, then the generate fallback). -/
theorem query_ollama_ndjson_last_wins :
    (query_ollama chatFail500 "p".data 3 3).1 = .ret (.jstr "ab".data)
    ∧ (query_ollama chatFail500m "p".data 3 3).1 = .ret (.jstr "ab".data)
    ∧ postsOf (query_ollama chatFail500 "p".data 3 3).2
        = [(.chat, .chatData "p".data), (.generate, .genData "p".data)] :=
  ⟨rfl, rfl, rfl⟩

/-- C5: with the chat endpoint returning HTTP 200 and the body
`{"message":{"content":"hello"}}`, `query_ollama` returns `"hello"` and the
only request posted is the one to the chat endpoint — the generate fallback
(which here would answer `"WRONG"`) is never contacted. -/
theorem query_ollama_chat_success_no_fallback :
    (query_ollama chatOk "p".data 3 3).1 = .ret (.jstr "hello".data)
    ∧ postsOf (query_ollama chatOk "p".data 3 3).2
        = [(.chat, .chatData "p".data)] :=
  ⟨rfl, rfl⟩

/-- C10: with `retries = 0` the loop body never runs: no HTTP request is made
to either endpoint and the fixed final string is returned. -/
theorem query_ollama_zero_retries (t : Transport) (prompt : List Char)
    (delay : Nat) :
    (query_ollama t prompt 0 delay).1
        = .ret (.jstr "Failed to get a response after multiple retries".data)
    ∧ postsOf (query_ollama t prompt 0 delay).2 = [] :=
  ⟨rfl, rfl⟩


theorem replicate_pred (a : Nat) (n : Nat) (h : 1 ≤ n) :
    a :: List.replicate (n-1) a = List.replicate n a := by
  obtain ⟨m, rfl⟩ : ∃ m, n = m + 1 := ⟨n-1, by omega⟩
  rfl

theorem queryLoop_all_fail (t : Transport) (prompt : List Char) (delay : Nat)
    (hf : ∀ u d, attemptFails (t u d)) :
    ∀ (k : Nat) (st : Endpoint × Payload), 1 ≤ k →
      (∃ s, (queryLoop t delay prompt k st).1 = PyOutcome.ret (.jstr s)
          ∧ descriptiveError s)
      ∧ sleepsOf (queryLoop t delay prompt k st).2 = List.replicate (k-1) delay
      ∧ (postsOf (queryLoop t delay prompt k st).2).length ≤ 2 * k := by
  intro k
  induction k with
  | zero => intro st h; exact absurd h (by omega)
  | succ n ih =>
    intro st _
    obtain ⟨url, data⟩ := st
    rcases h2 : t url data with m | ⟨code, body⟩
    · -- connection error on the first post
      by_cases hn : 1 ≤ n
      · obtain ⟨hret, hsl, hpl⟩ := ih (url, data) hn
        simp only [queryLoop, h2]
        rw [if_pos hn]
        simp only [sleepsOf, postsOf, List.filterMap_cons, List.length_cons]
          at hsl hpl ⊢
        refine ⟨hret, ?_, ?_⟩
        · rw [hsl]; exact replicate_pred delay n hn
        · omega
      · obtain rfl : n = 0 := by omega
        simp only [queryLoop, h2]
        rw [if_neg hn]
        exact ⟨⟨connErrMsg m, rfl, Or.inl ⟨m, rfl⟩⟩, rfl,
          by show 1 ≤ 2 * (0 + 1); omega⟩
    · -- non-200 status on the first post (by the all-fail hypothesis)
      have hcode : code ≠ 200 := by
        have h := hf url data
        rw [h2] at h
        exact h
      have hbeq : (code == 200) = false := beq_eq_false_iff_ne.mpr hcode
      rcases h3 : t Endpoint.generate (Payload.genData prompt)
        with m2 | ⟨code2, body2⟩
      · -- connection error on the generate post
        by_cases hn : 1 ≤ n
        · obtain ⟨hret, hsl, hpl⟩ :=
            ih (Endpoint.generate, Payload.genData prompt) hn
          simp only [queryLoop, h2, h3, hbeq, Bool.false_eq_true, if_false]
          rw [if_pos hn]
          simp only [sleepsOf, postsOf, List.filterMap_cons, List.length_cons]
            at hsl hpl ⊢
          refine ⟨hret, ?_, ?_⟩
          · rw [hsl]; exact replicate_pred delay n hn
          · omega
        · obtain rfl : n = 0 := by omega
          simp only [queryLoop, h2, h3, hbeq, Bool.false_eq_true, if_false]
          rw [if_neg hn]
          exact ⟨⟨connErrMsg m2, rfl, Or.inl ⟨m2, rfl⟩⟩, rfl,
            by show 2 ≤ 2 * (0 + 1); omega⟩
      · -- non-200 status on the generate post
        have hcode2 : code2 ≠ 200 := by
          have h := hf Endpoint.generate (Payload.genData prompt)
          rw [h3] at h
          exact h
        have hbeq2 : (code2 == 200) = false := beq_eq_false_iff_ne.mpr hcode2
        by_cases hn : 1 ≤ n
        · obtain ⟨hret, hsl, hpl⟩ :=
            ih (Endpoint.generate, Payload.genData prompt) hn
          simp only [queryLoop, h2, h3, hbeq, hbeq2, Bool.false_eq_true,
            if_false]
          rw [if_pos hn]
          simp only [sleepsOf, postsOf, List.filterMap_cons, List.length_cons]
            at hsl hpl ⊢
          refine ⟨hret, ?_, ?_⟩
          · rw [hsl]; exact replicate_pred delay n hn
          · omega
        · obtain rfl : n = 0 := by omega
          simp only [queryLoop, h2, h3, hbeq, hbeq2, Bool.false_eq_true,
            if_false]
          rw [if_neg hn]
          exact ⟨⟨statusErrMsg code2, rfl, Or.inr ⟨code2, hcode2, rfl⟩⟩, rfl,
            by show 2 ≤ 2 * (0 + 1); omega⟩

/-- C6: for every prompt and `retries ≥ 1`, when every HTTP attempt fails
(connection error or non-200 status from whatever endpoint is attempted),
`query_ollama` sleeps `retry_delay` between consecutive attempts (exactly
`retries - 1` sleeps, so exactly `retries` loop iterations are made and no
more), performs at most two HTTP posts per attempt, never raises to its
caller, and returns one of its two descriptive error strings. -/
theorem query_ollama_retry_exhaustion (t : Transport) (prompt : List Char)
    (retries delay : Nat) (h1 : 1 ≤ retries)
    (hf : ∀ u d, attemptFails (t u d)) :
    (∃ s, (query_ollama t prompt retries delay).1 = PyOutcome.ret (.jstr s)
        ∧ descriptiveError s)
    ∧ sleepsOf (query_ollama t prompt retries delay).2
        = List.replicate (retries - 1) delay
    ∧ (postsOf (query_ollama t prompt retries delay).2).length ≤ 2 * retries :=
  queryLoop_all_fail t prompt delay hf retries (.chat, .chatData prompt) h1

theorem query_ollama_retry_exhaustion_w :
    (∃ s, (query_ollama (fun _ _ => TResult.exc "boom".data) "p".data 2 7).1
        = PyOutcome.ret (.jstr s) ∧ descriptiveError s)
    ∧ sleepsOf (query_ollama (fun _ _ => TResult.exc "boom".data) "p".data 2 7).2
        = List.replicate 1 7
    ∧ (postsOf
        (query_ollama (fun _ _ => TResult.exc "boom".data) "p".data 2 7).2).length
        ≤ 4 :=
  query_ollama_retry_exhaustion (fun _ _ => TResult.exc "boom".data) "p".data 2 7
    (by omega) (fun u d => trivial)

/-! ### Claim theorems for the relevance analyzer and the pipeline -/

theorem foldl_add_two (p : List Char → Bool) :
    ∀ (l : List (List Char)) (a : Nat),
      l.foldl (fun acc t => if p t then acc + 2 else acc) a
        = a + 2 * (l.filter p).length
  | [], a => by simp
  | x :: xs, a => by
    by_cases hx : p x
    · simp only [List.foldl_cons, List.filter_cons, hx, if_true, if_pos hx,
        List.length_cons, foldl_add_two p xs (a+2)]
      ring
    · simp only [List.foldl_cons, List.filter_cons, hx, if_false, if_neg hx,
        Bool.false_eq_true, foldl_add_two p xs a]

theorem keywordScore_eq (title summary : List Char) (topics : List (List Char)) :
    keywordScore title summary topics
      = 2 * (topics.filter (fun topic =>
          containsSeq (pyLower topic) (pyLower title)
            || containsSeq (pyLower topic) (pyLower summary))).length := by
  unfold keywordScore
  rw [foldl_add_two]
  omega

/-- C8: whenever the LLM reply fails the score regex or the explanation regex,
`analyze_relevance` returns the keyword fallback: score
`min(10, 2 × count of topics whose lowercase form occurs as a substring of
the lowercase title or lowercase summary)`, the fixed fallback explanation
string, and `is_relevant = (score ≥ threshold)`. -/
theorem analyze_relevance_fallback (title summary : List Char)
    (topics : List (List Char)) (threshold : ℚ) (response : List Char)
    (h : scoreSearch response = none ∨ explSearch response = none) :
    analyze_relevance title summary topics threshold response =
      { score := min 10 (2 * (((topics.filter (fun topic =>
            containsSeq (pyLower topic) (pyLower title)
              || containsSeq (pyLower topic) (pyLower summary))).length : ℚ)))
        explanation := "Score based on keyword matching (fallback method).".data
        is_relevant := decide (threshold ≤ min 10 (2 * (((topics.filter
            (fun topic => containsSeq (pyLower topic) (pyLower title)
              || containsSeq (pyLower topic) (pyLower summary))).length : ℚ)))) } := by
  have hk : ((keywordScore title summary topics : ℚ))
      = 2 * (((topics.filter (fun topic =>
          containsSeq (pyLower topic) (pyLower title)
            || containsSeq (pyLower topic) (pyLower summary))).length : ℚ)) := by
    rw [keywordScore_eq]
    push_cast
    ring
  rcases hs : scoreSearch response with _ | sp
  · cases he : explSearch response
    all_goals simp [analyze_relevance, hs, he, hk]
  · have he : explSearch response = none := by
      rcases h with h | h
      · rw [hs] at h; cases h
      · exact h
    simp [analyze_relevance, hs, he, hk]

theorem analyze_relevance_fallback_w :
    scoreSearch "no score here".data = none
    ∧ (analyze_relevance "Graph Neural Networks".data "summary text".data
        [ "graph".data ] 6 "no score here".data).score = 2 := by
  refine ⟨by decide, ?_⟩
  rw [analyze_relevance_fallback _ _ _ _ _ (Or.inl (by decide))]
  have h1 : (List.filter (fun topic =>
      containsSeq (pyLower topic) (pyLower "Graph Neural Networks".data)
        || containsSeq (pyLower topic) (pyLower "summary text".data))
      [ "graph".data ]).length = 1 := by decide
  simp only [h1]
  norm_num [min_def]

/-- C9 counterexample: the reply `"RELEVANCE_SCORE: 11\nEXPLANATION: x"`
parses successfully and yields score 11, outside the interval [0, 10] — the
code never clamps the parsed value. -/
theorem analyze_relevance_score_above_ten :
    (analyze_relevance "t".data "s".data [] 6
        "RELEVANCE_SCORE: 11\nEXPLANATION: x".data).score = 11
    ∧ ¬ ((analyze_relevance "t".data "s".data [] 6
        "RELEVANCE_SCORE: 11\nEXPLANATION: x".data).score ≤ 10) := by
  have hs : scoreSearch "RELEVANCE_SCORE: 11\nEXPLANATION: x".data
      = some (11, 0, 0) := by decide
  have he : explSearch "RELEVANCE_SCORE: 11\nEXPLANATION: x".data
      = some "x".data := by decide
  constructor
  · simp only [analyze_relevance, hs, he]
    unfold scoreVal
    norm_num
  · simp only [analyze_relevance, hs, he]
    unfold scoreVal
    norm_num

/-- C9 (amended): for every title, summary, topic list, threshold and reply,
the relevance score is nonnegative, and whenever the reply fails the score or
explanation regex (the fallback path) it is moreover at most 10; a parsed
reply's score is the parsed decimal, which may exceed 10. -/
theorem analyze_relevance_score_bounds (title summary : List Char)
    (topics : List (List Char)) (threshold : ℚ) (response : List Char) :
    0 ≤ (analyze_relevance title summary topics threshold response).score
    ∧ ((scoreSearch response = none ∨ explSearch response = none) →
        (analyze_relevance title summary topics threshold response).score ≤ 10) := by
  rcases hs : scoreSearch response with _ | sp
  · cases he : explSearch response
    all_goals
      refine ⟨?_, fun _ => ?_⟩
      · simp only [analyze_relevance, hs, he]
        exact le_min (by norm_num) (by positivity)
      · simp only [analyze_relevance, hs, he]
        exact min_le_left _ _
  · rcases he : explSearch response with _ | ex
    · refine ⟨?_, fun _ => ?_⟩
      · simp only [analyze_relevance, hs, he]
        exact le_min (by norm_num) (by positivity)
      · simp only [analyze_relevance, hs, he]
        exact min_le_left _ _
    · refine ⟨?_, fun h => ?_⟩
      · simp only [analyze_relevance, hs, he]
        unfold scoreVal
        positivity
      · rcases h with h | h
        · exact Option.noConfusion h
        · exact Option.noConfusion h

theorem analyze_relevance_score_bounds_w :
    0 ≤ (analyze_relevance "t".data "s".data [] 6 "junk".data).score
    ∧ (analyze_relevance "t".data "s".data [] 6 "junk".data).score ≤ 10 :=
  ⟨(analyze_relevance_score_bounds "t".data "s".data [] 6 "junk".data).1,
    (analyze_relevance_score_bounds "t".data "s".data [] 6 "junk".data).2
      (Or.inl (by decide))⟩

/-- C7: a record is in the summarization-eligible set of a non-forced run iff
it is in the collection with `extracted_text` present and `summary` absent;
the selected batch is that set truncated at the limit, so every selected
record satisfies the two conditions; once `summary` is set on a record
(`update_paper_with_summary`), it is excluded from any subsequent non-forced
eligible set; and in force-refresh mode the summary condition is ignored —
eligibility is exactly `extracted_text` present. -/
theorem summarize_selection_spec (db : List Paper) (limit : Nat) (p : Paper)
    (s : List Char) :
    (∀ q, q ∈ eligibleSet db false
        ↔ q ∈ db ∧ q.extracted_text.isSome = true ∧ q.summary = none)
    ∧ (∀ q, q ∈ eligibleSet db true
        ↔ q ∈ db ∧ q.extracted_text.isSome = true)
    ∧ summarize_papers_selection db limit false = (eligibleSet db false).take limit
    ∧ summarize_papers_selection db limit true = (eligibleSet db true).take limit
    ∧ (∀ q, q ∈ summarize_papers_selection db limit false
        → q.extracted_text.isSome = true ∧ q.summary = none)
    ∧ setSummary p s ∉ eligibleSet db false := by
  refine ⟨?_, ?_, rfl, rfl, ?_, ?_⟩
  · intro q
    simp [eligibleSet, needsSummary, List.mem_filter, Option.isNone_iff_eq_none,
      and_assoc]
  · intro q
    simp [eligibleSet, hasExtracted, List.mem_filter]
  · intro q hq
    have hq2 : q ∈ db.filter needsSummary := List.take_subset _ _ hq
    have hq3 := (List.mem_filter.mp hq2).2
    simp only [needsSummary, Bool.and_eq_true, Option.isNone_iff_eq_none] at hq3
    exact hq3
  · simp [eligibleSet, List.mem_filter, needsSummary, setSummary]

theorem summarize_selection_spec_w :
    (⟨ "1".data, "t".data, some "x".data, none⟩ : Paper)
        ∈ eligibleSet [⟨ "1".data, "t".data, some "x".data, none⟩] false
    ∧ setSummary (⟨ "1".data, "t".data, some "x".data, none⟩ : Paper) "s".data
        ∉ eligibleSet [⟨ "1".data, "t".data, some "x".data, none⟩] false :=
  ⟨((summarize_selection_spec [⟨ "1".data, "t".data, some "x".data, none⟩] 1
        ⟨ "1".data, "t".data, some "x".data, none⟩ "s".data).1 _).mpr
      ⟨List.mem_singleton.mpr rfl, rfl, rfl⟩,
    (summarize_selection_spec [⟨ "1".data, "t".data, some "x".data, none⟩] 1
        ⟨ "1".data, "t".data, some "x".data, none⟩ "s".data).2.2.2.2.2⟩
